import Mathlib

/-!
Shallow embedding of the subscription/notification engine of the
Discord notifier bot (WebSub variant, with the polling video sweep of the
earlier variant where the claims reference it).

Conventions of the embedding:
* JavaScript timestamps (`Date.now()`, `expires_at`, `publishedAt`) are `Int`
  milliseconds.
* Fields that JavaScript leaves `undefined`/`null` are `Option`; JavaScript
  truthiness tests on strings compare against `""`.
* Network effects are parameters: the result of an upstream call is passed in
  as a value (`Option` for a call that can fail), and the functions report
  which effects they performed (queries issued, notifications sent, snapshot
  writes) as explicit counters/flags.
* `channelOk` stands for "the destination channel was fetched successfully,
  is a guild text channel, and the send succeeded" (the guard
  `discordChannel?.type === ChannelType.GuildText` plus a non-throwing send).
-/

namespace NightBot

/-- A YouTube video subscription record (`subscriptions` array entries).
`postedVideos` is `none` for legacy records that predate the bounded history
(the webhook handler materialises it on first use). -/
structure VideoSub where
  channelId : String
  channelName : String
  uploadsPlaylistId : Option String
  discordChannelId : String
  lastPostedVideoId : String
  postedVideos : Option (List String)
deriving Repr, DecidableEq

/-- One element of the Twitch `/helix/streams` bulk query response. -/
structure StreamInfo where
  id : String
  user_id : String
  user_login : String
  title : String
  game_name : String
deriving Repr, DecidableEq

/-- A Twitch stream subscription record (`twitchSubscriptions` array entries). -/
structure TwitchSub where
  twitchUsername : String
  twitchUserId : String
  twitchDisplayName : String
  profileImageUrl : Option String
  discordChannelId : String
  lastNotifiedStreamId : String
  liveMessage : Option String
deriving Repr, DecidableEq

/-- The cached Twitch OAuth token (`twitchOAuthToken`). -/
structure OAuthToken where
  access_token : String
  expires_at : Int
deriving Repr, DecidableEq

/-- A successful client-credentials exchange response
(`res.data.access_token`, `res.data.expires_in` in seconds). -/
structure ExchangeResult where
  access_token : String
  expires_in : Int
deriving Repr, DecidableEq

/-- Result of one `getTwitchAccessToken()` call: the token state afterwards,
the returned value (`none` models the JS `null` return), whether the upstream
client-credentials exchange was performed, and whether `saveData()` ran. -/
structure TokenCallResult where
  state : Option OAuthToken
  returned : Option String
  exchanged : Bool
  saved : Bool
deriving Repr, DecidableEq

/-- The guard of `getTwitchAccessToken`:
`!twitchOAuthToken || twitchOAuthToken.expires_at <= Date.now() + 60000`. -/
def needsExchange (st : Option OAuthToken) (now : Int) : Bool :=
  match st with
  | none => true
  | some t => decide (t.expires_at ≤ now + 60000)

/-- Model of `getTwitchAccessToken()`: takes the stored token, the clock, and the outcome
of the exchange (performed only when the guard fires; `none` = the axios call
threw, the `catch` returns `null` and leaves the stored token untouched). -/
def getTwitchAccessToken (st : Option OAuthToken) (now : Int)
    (exchange : Option ExchangeResult) : TokenCallResult :=
  if needsExchange st now then
    match exchange with
    | some r =>
        let t : OAuthToken :=
          { access_token := r.access_token, expires_at := now + r.expires_in * 1000 }
        ⟨some t, some t.access_token, true, true⟩
    | none => ⟨st, none, true, false⟩
  else ⟨st, st.map (fun t => t.access_token), false, false⟩

/-- Twitch user info as returned by `/helix/users`. -/
structure TwitchUserInfo where
  login : String
  id : String
  display_name : String
  profile_image_url : String
deriving Repr, DecidableEq

/-- Model of `getTwitchUserInfo`: skips the user query entirely when the token is
`null`. Returns the lookup result and the number of upstream queries made. -/
def getTwitchUserInfo (token : Option String)
    (userResult : Option TwitchUserInfo) : Option TwitchUserInfo × Nat :=
  match token with
  | none => (none, 0)
  | some _ => (userResult, 1)

/-- Result of the per-subscription body of `checkForLiveStreams`. -/
structure TwitchStepResult where
  sub : TwitchSub
  notified : Bool
  saved : Bool
deriving Repr, DecidableEq

/-- Per-subscription body of `checkForLiveStreams`: look the subscription's
user up in the bulk live result; if live with a different stream id, notify,
record it and `saveData()`; if live with the same id, do nothing; if absent,
clear `lastNotifiedStreamId` (with no `saveData()`). -/
def streamStep (liveStreams : List StreamInfo) (sub : TwitchSub) : TwitchStepResult :=
  match liveStreams.find? (fun s => s.user_id == sub.twitchUserId) with
  | some stream =>
      if stream.id ≠ sub.lastNotifiedStreamId then
        ⟨{ sub with lastNotifiedStreamId := stream.id }, true, true⟩
      else ⟨sub, false, false⟩
  | none => ⟨{ sub with lastNotifiedStreamId := "" }, false, false⟩

/-- Model of `checkForLiveStreams()`: `tokenResult` is what `getTwitchAccessToken()`
returned; `live` is the bulk query response (consulted only if the query is
issued). Returns the updated subscriptions, the number of bulk queries issued,
the number of notifications sent, and the number of `saveData()` calls. -/
def checkForLiveStreams (tokenResult : Option String) (live : List StreamInfo)
    (subs : List TwitchSub) : List TwitchSub × Nat × Nat × Nat :=
  if subs.isEmpty then (subs, 0, 0, 0)
  else
    match tokenResult with
    | none => (subs, 0, 0, 0)
    | some _ =>
        let stepped := subs.map (fun sub => streamStep live sub)
        (stepped.map (fun r => r.sub), 1,
         (stepped.filter (fun r => r.notified)).length,
         (stepped.filter (fun r => r.saved)).length)

/-- Feed a sequence of sweeps (each carrying that sweep's bulk live result)
to one stream subscription; returns the final record and the total number of
notifications sent. -/
def feedStreams (sub : TwitchSub) : List (List StreamInfo) → TwitchSub × Nat
  | [] => (sub, 0)
  | live :: rest =>
      let r := streamStep live sub
      let next := feedStreams r.sub rest
      (next.1, (if r.notified then 1 else 0) + next.2)

/-- Materialisation of `sub.postedVideos` in the webhook handler:
`if (!sub.postedVideos) sub.postedVideos = sub.lastPostedVideoId ? [sub.lastPostedVideoId] : []`. -/
def initHistory (sub : VideoSub) : List String :=
  match sub.postedVideos with
  | some l => l
  | none => if sub.lastPostedVideoId = "" then [] else [sub.lastPostedVideoId]

/-- Append the new id and evict the oldest entry past length 10:
`postedVideos.push(videoId); if (postedVideos.length > 10) postedVideos.shift()`. -/
def pushTrim (h : List String) (v : String) : List String :=
  let h2 := h ++ [v]
  if h2.length > 10 then h2.tail else h2

/-- The last ten elements of a list, in order (`drop (length - 10)`). -/
def takeLast10 (l : List String) : List String :=
  l.drop (l.length - 10)

/-- Result of the per-subscription body of the webhook POST handler. -/
structure VideoStepResult where
  sub : VideoSub
  notified : Bool
  saved : Bool
deriving Repr, DecidableEq

/-- Per-subscription body of the webhook POST handler for one delivered video
id: materialise the history, drop the delivery if the id is already present
(`postedVideos.includes(videoId)`), otherwise — when the destination channel
is usable — notify, append, trim to 10, set `lastPostedVideoId` and
`saveData()`. -/
def webhookStep (channelOk : Bool) (sub : VideoSub) (videoId : String) : VideoStepResult :=
  let pv := initHistory sub
  let sub0 := { sub with postedVideos := some pv }
  if pv.contains videoId then ⟨sub0, false, false⟩
  else if channelOk then
    ⟨{ sub0 with postedVideos := some (pushTrim pv videoId),
                 lastPostedVideoId := videoId }, true, true⟩
  else ⟨sub0, false, false⟩

/-- Feed a sequence of delivered video ids to one subscription through the
webhook path; returns the final record and the total notifications sent. -/
def feedVideos (channelOk : Bool) (sub : VideoSub) : List String → VideoSub × Nat
  | [] => (sub, 0)
  | v :: vs =>
      let r := webhookStep channelOk sub v
      let next := feedVideos channelOk r.sub vs
      (next.1, (if r.notified then 1 else 0) + next.2)

/-- One `<entry>` of the WebSub feed document. The feed carries a publish
timestamp (`published`); the handler extracts only `yt:videoId`,
`yt:channelId`, `title` and `link`. -/
structure FeedEntry where
  videoId : String
  channelId : String
  title : String
  link : String
  published : Int
deriving Repr, DecidableEq

/-- Outcome of parsing the POST body: unparseable XML, an `at:deleted-entry`
feed, a feed with no entry, or the first entry. -/
inductive FeedParse where
  | malformed
  | deletedEntry
  | noEntry
  | entry (e : FeedEntry)
deriving Repr, DecidableEq

/-- Replace the first element satisfying `p` (the record that
`subscriptions.find` returned and the handler mutates in place). -/
def updateFirst (p : α → Bool) (f : α → α) : List α → List α
  | [] => []
  | x :: xs => if p x then f x :: xs else x :: updateFirst p f xs

/-- Body processing of the webhook POST handler: malformed, deleted-entry and
empty feeds are ignored; otherwise find the subscription matching the entry's
channel id (silently ignore if none) and run `webhookStep` on it. Returns the
updated store and the number of notifications sent. -/
def processFeed (channelOk : Bool) (subs : List VideoSub) (p : FeedParse) :
    List VideoSub × Nat :=
  match p with
  | .malformed => (subs, 0)
  | .deletedEntry => (subs, 0)
  | .noEntry => (subs, 0)
  | .entry e =>
      match subs.find? (fun s => s.channelId == e.channelId) with
      | none => (subs, 0)
      | some sub =>
          let r := webhookStep channelOk sub e.videoId
          (updateFirst (fun s => s.channelId == e.channelId) (fun _ => r.sub) subs,
           if r.notified then 1 else 0)

/-- Handler of `GET /youtube-webhook`: echo a (truthy) `hub.challenge` back with 200,
otherwise answer 200 `"Bot is awake."`. Returns (status, body). -/
def handleWebhookGet (challenge : Option String) : Nat × String :=
  match challenge with
  | some c => if c = "" then (200, "Bot is awake.") else (200, c)
  | none => (200, "Bot is awake.")

/-- Handler of `POST /youtube-webhook`: the handler acknowledges with `200 OK` first and
only then parses/processes the body, so the response is the same for every
body, malformed ones included. Returns ((status, body), processing outcome). -/
def handleWebhookPost (channelOk : Bool) (subs : List VideoSub) (p : FeedParse) :
    (Nat × String) × (List VideoSub × Nat) :=
  ((200, "OK"), processFeed channelOk subs p)

/-- One item fetched from an uploads playlist (id and publish instant). -/
structure VideoItem where
  videoId : String
  publishedAt : Int
deriving Repr, DecidableEq

/-- Result of the dedup/notify core of one `checkForNewVideos` iteration. -/
structure PollStepResult where
  sub : VideoSub
  notified : Bool
  changed : Bool
deriving Repr, DecidableEq

/-- The polling recency guard:
`Date.now() - publishedAt.getTime() < 24 * 60 * 60 * 1000`. -/
def isRecent (now publishedAt : Int) : Bool :=
  decide (now - publishedAt < 24 * 60 * 60 * 1000)

/-- Dedup/notify core of one `checkForNewVideos` iteration (the `if (video)`
block): ignore the candidate if it equals `lastPostedVideoId`; otherwise if it
is recent, notify (when the channel is usable) and record it; if it is old,
record it without notifying. `changed` is the `dataChanged` contribution. -/
def pollVideoStep (now : Int) (channelOk : Bool) (sub : VideoSub)
    (video : Option VideoItem) : PollStepResult :=
  match video with
  | none => ⟨sub, false, false⟩
  | some v =>
      if v.videoId ≠ sub.lastPostedVideoId then
        if isRecent now v.publishedAt then
          if channelOk then
            ⟨{ sub with lastPostedVideoId := v.videoId }, true, true⟩
          else ⟨sub, false, false⟩
        else ⟨{ sub with lastPostedVideoId := v.videoId }, false, true⟩
      else ⟨sub, false, false⟩

/-- Accumulator of the `checkForNewVideos` sweep: processed subscriptions, the
per-sweep `videoCache`, the `dataChanged` flag, notifications sent, and the
number of `saveData()` calls made inside the per-subscription loop (the source
has no such call — the single `saveData()` sits after the loop). -/
structure SweepAcc where
  subs : List VideoSub
  cache : List (String × Option VideoItem)
  dataChanged : Bool
  notifs : Nat
  loopSaves : Nat
deriving Repr, DecidableEq

/-- The cache/fetch/dedup part of one `checkForNewVideos` iteration, once the
uploads playlist id `pid` is known (`resolvedNow` records whether it was just
resolved, which also sets `dataChanged`). -/
def pollCachedStep (now : Int) (channelOk : Bool)
    (fetchLatest : String → Option VideoItem) (acc : SweepAcc)
    (sub : VideoSub) (pid : String) (resolvedNow : Bool) : SweepAcc :=
  let lookedUp := acc.cache.lookup pid
  let video : Option VideoItem :=
    match lookedUp with
    | some v => v
    | none => fetchLatest pid
  let cache2 :=
    match lookedUp with
    | some _ => acc.cache
    | none => acc.cache ++ [(pid, video)]
  let r := pollVideoStep now channelOk sub video
  { subs := acc.subs ++ [r.sub],
    cache := cache2,
    dataChanged := acc.dataChanged || resolvedNow || r.changed,
    notifs := acc.notifs + (if r.notified then 1 else 0),
    loopSaves := acc.loopSaves }

/-- One full `checkForNewVideos` iteration: resolve the uploads playlist id if
missing (`continue` when the channel lookup fails), then `pollCachedStep`. -/
def pollSubStep (now : Int) (channelOk : Bool)
    (resolvePlaylist : String → Option String)
    (fetchLatest : String → Option VideoItem)
    (acc : SweepAcc) (sub : VideoSub) : SweepAcc :=
  match sub.uploadsPlaylistId with
  | some pid => pollCachedStep now channelOk fetchLatest acc sub pid false
  | none =>
      match resolvePlaylist sub.channelId with
      | none => { acc with subs := acc.subs ++ [sub] }
      | some pid =>
          pollCachedStep now channelOk fetchLatest acc
            { sub with uploadsPlaylistId := some pid } pid true

/-- Model of `checkForNewVideos()` (polling variant): sweep all subscriptions, then
call `saveData()` once at the end iff `dataChanged` — the second component is
that final write. -/
def checkForNewVideos (now : Int) (channelOk : Bool)
    (resolvePlaylist : String → Option String)
    (fetchLatest : String → Option VideoItem)
    (subs : List VideoSub) : SweepAcc × Bool :=
  let acc := subs.foldl (pollSubStep now channelOk resolvePlaylist fetchLatest)
    ⟨[], [], false, 0, 0⟩
  (acc, acc.dataChanged)

/-- YouTube channel lookup result used by the `!sub` command. -/
structure ChannelInfo where
  title : String
  uploadsPlaylistId : String
deriving Repr, DecidableEq

/-- The `!sub` command after argument parsing: `lookup` is the channel lookup
result (`none` = "Channel not found", store untouched), `latestId` the
bookmark fetch result. On success the record is appended unconditionally —
there is no duplicate check. Returns (store, whether a record was added). -/
def subCommand (subs : List VideoSub) (messageChannelId : String)
    (lookup : Option ChannelInfo) (latestId : Option String)
    (channelIdArg : String) : List VideoSub × Bool :=
  match lookup with
  | none => (subs, false)
  | some ch =>
      let currentId := latestId.getD ""
      (subs ++ [{ channelId := channelIdArg,
                  channelName := ch.title,
                  uploadsPlaylistId := some ch.uploadsPlaylistId,
                  discordChannelId := messageChannelId,
                  lastPostedVideoId := currentId,
                  postedVideos := some [currentId] }], true)

/-- The `!tsub` command after argument parsing: `info` is the
`getTwitchUserInfo` result (`none` = "Twitch user not found"). On success the
record is appended unconditionally — there is no duplicate check. -/
def tsubCommand (tsubs : List TwitchSub) (messageChannelId : String)
    (info : Option TwitchUserInfo) (msg : String) : List TwitchSub × Bool :=
  match info with
  | none => (tsubs, false)
  | some i =>
      (tsubs ++ [{ twitchUsername := i.login,
                   twitchUserId := i.id,
                   twitchDisplayName := i.display_name,
                   profileImageUrl := some i.profile_image_url,
                   discordChannelId := messageChannelId,
                   lastNotifiedStreamId := "",
                   liveMessage := if msg = "" then none else some msg }], true)

/-- Number of records in the store for a given (source id, destination id)
pair. -/
def pairCount (subs : List VideoSub) (srcId dstId : String) : Nat :=
  (subs.filter (fun s => s.channelId == srcId && s.discordChannelId == dstId)).length

/-! Concrete example values used to instantiate the theorems. -/

/-- Example video subscription with an empty notified-video history. -/
def vSubEx : VideoSub :=
  { channelId := "UC1", channelName := "Chan", uploadsPlaylistId := some "UU1",
    discordChannelId := "D1", lastPostedVideoId := "", postedVideos := some [] }

/-- Example video subscription whose history already holds `"v0"`. -/
def vSubEx2 : VideoSub :=
  { vSubEx with lastPostedVideoId := "v0", postedVideos := some ["v0"] }

/-- Ten pairwise distinct video ids. -/
def idsEx : List String :=
  ["a1", "a2", "a3", "a4", "a5", "a6", "a7", "a8", "a9", "a10"]

/-- Example stream subscription whose last notified session id is `"abc"`. -/
def tSubEx : TwitchSub :=
  { twitchUsername := "user", twitchUserId := "42", twitchDisplayName := "User",
    profileImageUrl := some "img", discordChannelId := "D1",
    lastNotifiedStreamId := "abc", liveMessage := none }

/-- Example stream subscription with a cleared last-notified slot. -/
def tSubEx0 : TwitchSub :=
  { tSubEx with lastNotifiedStreamId := "" }

/-- Example live stream with session id `"abc"` for user `"42"`. -/
def stEx : StreamInfo :=
  { id := "abc", user_id := "42", user_login := "user", title := "t",
    game_name := "g" }

/-- Example feed entry with publish instant 0 (the epoch). -/
def entryEx : FeedEntry :=
  { videoId := "v48", channelId := "UC1", title := "t", link := "l",
    published := 0 }

/-- Example channel lookup result for the subscribe command. -/
def chEx : ChannelInfo := { title := "Chan", uploadsPlaylistId := "UU1" }

/-- Example Twitch user lookup result for the subscribe command. -/
def infoEx : TwitchUserInfo :=
  { login := "user", id := "42", display_name := "User",
    profile_image_url := "img" }

end NightBot

/-! Helper lemmas. -/

namespace NightBot

theorem takeLast10_reverse (l : List String) :
    (takeLast10 l).reverse = l.reverse.take 10 := by
  unfold takeLast10
  rw [List.reverse_drop]
  rcases le_or_lt 10 l.length with h | h
  · have h2 : l.length - (l.length - 10) = 10 := by omega
    rw [h2]
  · have h2 : l.length - (l.length - 10) = l.length := by omega
    rw [h2, List.take_of_length_le (by simp),
        List.take_of_length_le (by simp; omega)]

theorem takeLast10_of_le (l : List String) (h : l.length ≤ 10) :
    takeLast10 l = l := by
  unfold takeLast10
  have h0 : l.length - 10 = 0 := by omega
  rw [h0, List.drop_zero]

theorem length_takeLast10 (l : List String) :
    (takeLast10 l).length = min l.length 10 := by
  unfold takeLast10
  rw [List.length_drop]
  omega

theorem takeLast10_append_left (l r : List String) :
    takeLast10 (takeLast10 l ++ r) = takeLast10 (l ++ r) := by
  rw [← List.reverse_inj, takeLast10_reverse, takeLast10_reverse,
      List.reverse_append, List.reverse_append, takeLast10_reverse,
      List.take_append_eq_append_take, List.take_append_eq_append_take,
      List.take_take]
  congr 1
  congr 1
  omega

theorem takeLast10_append_right (l r : List String) (h : 10 ≤ r.length) :
    takeLast10 (l ++ r) = takeLast10 r := by
  rw [← List.reverse_inj, takeLast10_reverse, takeLast10_reverse,
      List.reverse_append, List.take_append_eq_append_take]
  have h0 : 10 - r.reverse.length = 0 := by simp; omega
  rw [h0, List.take_zero, List.append_nil]

theorem takeLast10_subset (l : List String) : takeLast10 l ⊆ l :=
  List.drop_subset _ l

theorem getLastD_irrel (l : List String) (h : l ≠ []) (d1 d2 : String) :
    l.getLastD d1 = l.getLastD d2 := by
  cases l with
  | nil => exact absurd rfl h
  | cons x xs => rfl

theorem getLastD_append (l1 l2 : List String) (d : String) (h : l2 ≠ []) :
    (l1 ++ l2).getLastD d = l2.getLastD d := by
  induction l1 generalizing d with
  | nil => rfl
  | cons x xs ih =>
      rw [List.cons_append, List.getLastD_cons, ih x]
      cases l2 with
      | nil => exact absurd rfl h
      | cons y ys => rfl

theorem getLastD_takeLast10 (l : List String) (h : l ≠ []) (d1 d2 : String) :
    (takeLast10 l).getLastD d1 = l.getLastD d2 := by
  have hlen : 0 < l.length := List.length_pos.mpr h
  have hne : takeLast10 l ≠ [] := by
    have := length_takeLast10 l
    intro hnil
    rw [hnil] at this
    simp at this
    omega
  have hsplit : List.take (l.length - 10) l ++ takeLast10 l = l := by
    unfold takeLast10
    exact List.take_append_drop _ l
  conv_rhs => rw [← hsplit]
  rw [getLastD_append _ _ _ hne]
  exact getLastD_irrel _ hne d1 d2

theorem pushTrim_eq_takeLast10 (h : List String) (v : String) (hl : h.length ≤ 10) :
    pushTrim h v = takeLast10 (h ++ [v]) := by
  unfold pushTrim takeLast10
  by_cases hc : (h ++ [v]).length > 10
  · rw [if_pos hc, ← List.drop_one]
    congr 1
    simp at hc ⊢
    omega
  · rw [if_neg hc]
    have h0 : (h ++ [v]).length - 10 = 0 := by
      simp at hc ⊢
      omega
    rw [h0, List.drop_zero]

theorem mem_pushTrim (h : List String) (v : String) : v ∈ pushTrim h v := by
  unfold pushTrim
  by_cases hc : (h ++ [v]).length > 10
  · rw [if_pos hc]
    cases h with
    | nil => simp at hc
    | cons x xs => simp
  · rw [if_neg hc]
    simp

theorem pushTrim_subset (h : List String) (v : String) : pushTrim h v ⊆ h ++ [v] := by
  unfold pushTrim
  by_cases hc : (h ++ [v]).length > 10
  · rw [if_pos hc]
    exact List.tail_subset _
  · rw [if_neg hc]
    exact List.Subset.refl _

theorem length_pushTrim_le (h : List String) (v : String) (hl : h.length ≤ 10) :
    (pushTrim h v).length ≤ 10 := by
  rw [pushTrim_eq_takeLast10 h v hl, length_takeLast10]
  omega

end NightBot

namespace NightBot

theorem contains_eq_true_iff (l : List String) (a : String) :
    l.contains a = true ↔ a ∈ l := by
  simp [List.contains]

theorem webhookStep_new (sub : VideoSub) (v : String) (hv : v ∉ initHistory sub) :
    webhookStep true sub v =
      ⟨{ sub with postedVideos := some (pushTrim (initHistory sub) v),
                  lastPostedVideoId := v }, true, true⟩ := by
  have hc : (initHistory sub).contains v = false :=
    Bool.eq_false_iff.mpr (fun h => hv ((contains_eq_true_iff _ _).mp h))
  unfold webhookStep
  simp [hc]
  exact hv

theorem webhookStep_dup (channelOk : Bool) (sub : VideoSub) (h : List String)
    (v : String) (hp : sub.postedVideos = some h) (hv : v ∈ h) :
    webhookStep channelOk sub v = ⟨sub, false, false⟩ := by
  cases sub with
  | mk a b c d e f =>
      have hf : f = some h := hp
      subst hf
      unfold webhookStep initHistory
      simp [hv]

theorem feedVideos_replicate_dup (channelOk : Bool) (sub : VideoSub) (v : String)
    (m : Nat) (hstep : webhookStep channelOk sub v = ⟨sub, false, false⟩) :
    feedVideos channelOk sub (List.replicate m v) = (sub, 0) := by
  induction m with
  | zero => rfl
  | succ n ih =>
      rw [List.replicate_succ]
      simp [feedVideos, hstep, ih]

theorem feedStreams_replicate_dup (sub : TwitchSub) (live : List StreamInfo)
    (m : Nat) (hstep : streamStep live sub = ⟨sub, false, false⟩) :
    feedStreams sub (List.replicate m live) = (sub, 0) := by
  induction m with
  | zero => rfl
  | succ n ih =>
      rw [List.replicate_succ]
      simp [feedStreams, hstep, ih]

theorem streamStep_live_new (live : List StreamInfo) (sub : TwitchSub)
    (st : StreamInfo)
    (hfind : live.find? (fun s => s.user_id == sub.twitchUserId) = some st)
    (hne : st.id ≠ sub.lastNotifiedStreamId) :
    streamStep live sub = ⟨{ sub with lastNotifiedStreamId := st.id }, true, true⟩ := by
  unfold streamStep
  rw [hfind]
  simp [hne]

theorem streamStep_live_dup (live : List StreamInfo) (sub : TwitchSub)
    (st : StreamInfo)
    (hfind : live.find? (fun s => s.user_id == sub.twitchUserId) = some st)
    (heq : st.id = sub.lastNotifiedStreamId) :
    streamStep live sub = ⟨sub, false, false⟩ := by
  unfold streamStep
  rw [hfind]
  simp [heq]

theorem streamStep_offline (live : List StreamInfo) (sub : TwitchSub)
    (hfind : live.find? (fun s => s.user_id == sub.twitchUserId) = none) :
    streamStep live sub = ⟨{ sub with lastNotifiedStreamId := "" }, false, false⟩ := by
  unfold streamStep
  rw [hfind]

end NightBot

namespace NightBot

theorem feedVideos_spec (ids : List String) :
    ∀ (sub : VideoSub) (h : List String),
    sub.postedVideos = some h → h.length ≤ 10 → ids.Nodup →
    (∀ v ∈ ids, v ∉ h) →
    (feedVideos true sub ids).1.postedVideos = some (takeLast10 (h ++ ids)) ∧
    (feedVideos true sub ids).2 = ids.length ∧
    (feedVideos true sub ids).1.lastPostedVideoId
      = ids.getLastD sub.lastPostedVideoId := by
  induction ids with
  | nil =>
      intro sub h hp hl _ _
      simp [feedVideos, takeLast10_of_le h hl, hp]
  | cons v vs ih =>
      intro sub h hp hl hnd hdisj
      have hist : initHistory sub = h := by
        unfold initHistory
        rw [hp]
      have hv : v ∉ initHistory sub := by
        rw [hist]
        exact hdisj v (by simp)
      have hstep : webhookStep true sub v =
          ⟨{ sub with postedVideos := some (pushTrim h v), lastPostedVideoId := v },
           true, true⟩ := by
        rw [webhookStep_new sub v hv, hist]
      have hfresh : ∀ w ∈ vs, w ∉ pushTrim h v := by
        intro w hw hmem
        rcases List.mem_append.mp (pushTrim_subset h v hmem) with hmem2 | hmem2
        · exact hdisj w (List.mem_cons_of_mem v hw) hmem2
        · rw [List.mem_singleton] at hmem2
          subst hmem2
          exact (List.nodup_cons.mp hnd).1 hw
      obtain ⟨ih1, ih2, ih3⟩ := ih
        { sub with postedVideos := some (pushTrim h v), lastPostedVideoId := v }
        (pushTrim h v) rfl (length_pushTrim_le h v hl)
        (List.nodup_cons.mp hnd).2 hfresh
      have hunf : feedVideos true sub (v :: vs)
          = ((feedVideos true
                { sub with postedVideos := some (pushTrim h v),
                           lastPostedVideoId := v } vs).1,
             1 + (feedVideos true
                { sub with postedVideos := some (pushTrim h v),
                           lastPostedVideoId := v } vs).2) := by
        simp [feedVideos, hstep]
      refine ⟨?_, ?_, ?_⟩
      · rw [hunf]
        rw [ih1, pushTrim_eq_takeLast10 h v hl, takeLast10_append_left]
        have : (h ++ [v]) ++ vs = h ++ v :: vs := by simp
        rw [this]
      · rw [hunf]
        rw [ih2]
        simp [Nat.add_comm]
      · rw [hunf]
        rw [ih3]
        rw [List.getLastD_cons]

end NightBot

/-! Claim theorems. -/

namespace NightBot

/-- C1 (Dedup idempotence): for a video subscription and a content id not yet
in its history, and for a stream subscription sighted live with a session id
differing from its last-notified one, the first feed of the id classifies it
as new — sending a notification and updating (and persisting) the state — and
every immediately following repetition of the same id classifies it as
duplicate, with no notification and no state change: over `n + 1` (resp.
`m + 1`) consecutive identical feeds, exactly one notification is sent and the
state after the first feed never changes again. -/
theorem c1_dedup_idempotence
    (sub : VideoSub) (v : String) (tsub : TwitchSub)
    (live : List StreamInfo) (st : StreamInfo) (n m : Nat)
    (hv : v ∉ initHistory sub)
    (hfind : live.find? (fun s => s.user_id == tsub.twitchUserId) = some st)
    (hnew : st.id ≠ tsub.lastNotifiedStreamId) :
    ((webhookStep true sub v).notified = true ∧
     (webhookStep true sub v).saved = true ∧
     (webhookStep true sub v).sub.lastPostedVideoId = v ∧
     v ∈ initHistory (webhookStep true sub v).sub ∧
     webhookStep true (webhookStep true sub v).sub v
       = ⟨(webhookStep true sub v).sub, false, false⟩ ∧
     feedVideos true sub (List.replicate (n + 1) v)
       = ((webhookStep true sub v).sub, 1)) ∧
    ((streamStep live tsub).notified = true ∧
     (streamStep live tsub).saved = true ∧
     (streamStep live tsub).sub.lastNotifiedStreamId = st.id ∧
     streamStep live (streamStep live tsub).sub
       = ⟨(streamStep live tsub).sub, false, false⟩ ∧
     feedStreams tsub (List.replicate (m + 1) live)
       = ((streamStep live tsub).sub, 1)) := by
  have hstep := webhookStep_new sub v hv
  have hmem : v ∈ initHistory (webhookStep true sub v).sub := by
    rw [hstep]
    show v ∈ initHistory _
    unfold initHistory
    exact mem_pushTrim _ v
  have hdup : webhookStep true (webhookStep true sub v).sub v
      = ⟨(webhookStep true sub v).sub, false, false⟩ := by
    rw [hstep]
    exact webhookStep_dup true _ (pushTrim (initHistory sub) v) v rfl
      (mem_pushTrim _ v)
  have hvid : feedVideos true sub (List.replicate (n + 1) v)
      = ((webhookStep true sub v).sub, 1) := by
    have hrep := feedVideos_replicate_dup true _ v n hdup
    rw [hstep] at hrep
    rw [List.replicate_succ]
    simp [feedVideos, hstep, hrep]
  have hstep2 := streamStep_live_new live tsub st hfind hnew
  have hfind2 : live.find?
      (fun s => s.user_id == (streamStep live tsub).sub.twitchUserId) = some st := by
    rw [hstep2]
    exact hfind
  have hdup2 : streamStep live (streamStep live tsub).sub
      = ⟨(streamStep live tsub).sub, false, false⟩ := by
    refine streamStep_live_dup live _ st hfind2 ?_
    rw [hstep2]
  have hstr : feedStreams tsub (List.replicate (m + 1) live)
      = ((streamStep live tsub).sub, 1) := by
    have hrep := feedStreams_replicate_dup _ live m hdup2
    rw [hstep2] at hrep
    rw [List.replicate_succ]
    simp [feedStreams, hstep2, hrep]
  refine ⟨⟨?_, ?_, ?_, hmem, hdup, hvid⟩, ⟨?_, ?_, ?_, hdup2, hstr⟩⟩
  · rw [hstep]
  · rw [hstep]
  · rw [hstep]
  · rw [hstep2]
  · rw [hstep2]
  · rw [hstep2]

/-- Witness for C1: the hypotheses and conclusion evaluated at a concrete
fresh video id and a concrete live sighting, repeated three times each. -/
theorem c1_dedup_idempotence_witness :
    ("v1" ∉ initHistory vSubEx ∧
     [stEx].find? (fun s => s.user_id == tSubEx0.twitchUserId) = some stEx ∧
     stEx.id ≠ tSubEx0.lastNotifiedStreamId) ∧
    ((webhookStep true vSubEx "v1").notified = true ∧
     (webhookStep true vSubEx "v1").saved = true ∧
     (webhookStep true vSubEx "v1").sub.lastPostedVideoId = "v1" ∧
     "v1" ∈ initHistory (webhookStep true vSubEx "v1").sub ∧
     webhookStep true (webhookStep true vSubEx "v1").sub "v1"
       = ⟨(webhookStep true vSubEx "v1").sub, false, false⟩ ∧
     feedVideos true vSubEx (List.replicate 3 "v1")
       = ((webhookStep true vSubEx "v1").sub, 1)) ∧
    ((streamStep [stEx] tSubEx0).notified = true ∧
     (streamStep [stEx] tSubEx0).saved = true ∧
     (streamStep [stEx] tSubEx0).sub.lastNotifiedStreamId = stEx.id ∧
     streamStep [stEx] (streamStep [stEx] tSubEx0).sub
       = ⟨(streamStep [stEx] tSubEx0).sub, false, false⟩ ∧
     feedStreams tSubEx0 (List.replicate 3 [stEx])
       = ((streamStep [stEx] tSubEx0).sub, 1)) := by
  refine ⟨⟨by decide, by decide, by decide⟩, ?_⟩
  exact c1_dedup_idempotence vSubEx "v1" tSubEx0 [stEx] stEx 2 2
    (by decide) (by decide) (by decide)

end NightBot

namespace NightBot

/-- C2 (Stream reset): a sweep whose bulk live result does not list the
subscription's user sets the last-notified session id to the empty string, so
a subsequent sweep finding the user live with a (nonempty) session id — in
particular the very id that was last notified before the reset — classifies
the sighting as new and sends a notification. -/
theorem c2_stream_reset (sub : TwitchSub) (live1 live2 : List StreamInfo)
    (st : StreamInfo)
    (hoff : ∀ s ∈ live1, s.user_id ≠ sub.twitchUserId)
    (hfind : live2.find? (fun s => s.user_id == sub.twitchUserId) = some st)
    (hid : st.id ≠ "") :
    (streamStep live1 sub).sub.lastNotifiedStreamId = "" ∧
    (streamStep live2 (streamStep live1 sub).sub).notified = true ∧
    (streamStep live2 (streamStep live1 sub).sub).sub.lastNotifiedStreamId
      = st.id := by
  have hfind1 : live1.find? (fun s => s.user_id == sub.twitchUserId) = none := by
    rw [List.find?_eq_none]
    intro x hx
    simp [hoff x hx]
  have hoffstep := streamStep_offline live1 sub hfind1
  have hfind2 : live2.find?
      (fun s => s.user_id == (streamStep live1 sub).sub.twitchUserId) = some st := by
    rw [hoffstep]
    exact hfind
  have hstep2 := streamStep_live_new live2 _ st hfind2 (by rw [hoffstep]; simpa using hid)
  refine ⟨?_, ?_, ?_⟩
  · rw [hoffstep]
  · rw [hstep2]
  · rw [hstep2]

/-- Witness for C2: last-notified `"abc"`, then an offline sweep, then a
sweep reporting the user live with session id `"abc"` again. -/
theorem c2_stream_reset_witness :
    ((∀ s ∈ ([] : List StreamInfo), s.user_id ≠ tSubEx.twitchUserId) ∧
     [stEx].find? (fun s => s.user_id == tSubEx.twitchUserId) = some stEx ∧
     stEx.id ≠ "" ∧ tSubEx.lastNotifiedStreamId = stEx.id) ∧
    (streamStep [] tSubEx).sub.lastNotifiedStreamId = "" ∧
    (streamStep [stEx] (streamStep [] tSubEx).sub).notified = true ∧
    (streamStep [stEx] (streamStep [] tSubEx).sub).sub.lastNotifiedStreamId
      = stEx.id := by
  refine ⟨⟨by simp, by decide, by decide, by decide⟩, ?_⟩
  exact c2_stream_reset tSubEx [] [stEx] stEx (by simp) (by decide) (by decide)

/-- C3 (History bound): feeding a video subscription (whose stored history is
within the 10-entry bound) at least ten pairwise distinct ids, none already in
its history, through the push path classifies each as new and leaves a stored
history of exactly 10 entries — the 10 most recently added ids in order — with
the last-notified id equal to the most recently appended history entry. -/
theorem c3_history_bound (sub : VideoSub) (h : List String) (ids : List String)
    (hp : sub.postedVideos = some h) (hl : h.length ≤ 10)
    (hnd : ids.Nodup) (hdisj : ∀ v ∈ ids, v ∉ h) (hlen : 10 ≤ ids.length) :
    (feedVideos true sub ids).1.postedVideos = some (takeLast10 ids) ∧
    (takeLast10 ids).length = 10 ∧
    (feedVideos true sub ids).2 = ids.length ∧
    (feedVideos true sub ids).1.lastPostedVideoId
      = (takeLast10 ids).getLastD "" := by
  obtain ⟨h1, h2, h3⟩ := feedVideos_spec ids sub h hp hl hnd hdisj
  have hne : ids ≠ [] := by
    intro hnil
    rw [hnil] at hlen
    simp at hlen
  refine ⟨?_, ?_, h2, ?_⟩
  · rw [h1, takeLast10_append_right h ids hlen]
  · rw [length_takeLast10]
    omega
  · rw [h3]
    exact (getLastD_takeLast10 ids hne "" sub.lastPostedVideoId).symm

/-- Witness for C3: ten distinct ids fed to a subscription with an empty
history. -/
theorem c3_history_bound_witness :
    (vSubEx.postedVideos = some [] ∧ ([] : List String).length ≤ 10 ∧
     idsEx.Nodup ∧ (∀ v ∈ idsEx, v ∉ ([] : List String)) ∧ 10 ≤ idsEx.length) ∧
    (feedVideos true vSubEx idsEx).1.postedVideos = some (takeLast10 idsEx) ∧
    (takeLast10 idsEx).length = 10 ∧
    (feedVideos true vSubEx idsEx).2 = idsEx.length ∧
    (feedVideos true vSubEx idsEx).1.lastPostedVideoId
      = (takeLast10 idsEx).getLastD "" := by
  refine ⟨⟨by decide, by decide, by decide, by decide, by decide⟩, ?_⟩
  exact c3_history_bound vSubEx [] idsEx (by decide) (by decide) (by decide)
    (by decide) (by decide)

/-- C10 (Bounded dedup window): an id in the stored history is no longer in
it after ten distinct fresh ids have been fed through the push path, and a
redelivery of it is then classified new again, sending (and persisting) a
second notification for the same content id. -/
theorem c10_bounded_dedup_window (sub : VideoSub) (h : List String)
    (v : String) (ids : List String)
    (hp : sub.postedVideos = some h) (hl : h.length ≤ 10) (hvh : v ∈ h)
    (hnd : ids.Nodup) (hdisj : ∀ w ∈ ids, w ∉ h) (hlen : 10 ≤ ids.length) :
    v ∉ initHistory (feedVideos true sub ids).1 ∧
    (webhookStep true (feedVideos true sub ids).1 v).notified = true ∧
    (webhookStep true (feedVideos true sub ids).1 v).saved = true := by
  obtain ⟨h1, _, _⟩ := feedVideos_spec ids sub h hp hl hnd hdisj
  have hist : initHistory (feedVideos true sub ids).1 = takeLast10 ids := by
    unfold initHistory
    rw [h1]
    exact takeLast10_append_right h ids hlen
  have hv2 : v ∉ initHistory (feedVideos true sub ids).1 := by
    rw [hist]
    intro hmem
    exact hdisj v (takeLast10_subset ids hmem) hvh
  have hstep := webhookStep_new _ v hv2
  exact ⟨hv2, by rw [hstep], by rw [hstep]⟩

/-- Witness for C10: the id `"v0"` sits in the history, ten distinct ids are
fed, and a redelivery of `"v0"` notifies again. -/
theorem c10_bounded_dedup_window_witness :
    (vSubEx2.postedVideos = some ["v0"] ∧ (["v0"] : List String).length ≤ 10 ∧
     "v0" ∈ (["v0"] : List String) ∧ idsEx.Nodup ∧
     (∀ w ∈ idsEx, w ∉ (["v0"] : List String)) ∧ 10 ≤ idsEx.length) ∧
    "v0" ∉ initHistory (feedVideos true vSubEx2 idsEx).1 ∧
    (webhookStep true (feedVideos true vSubEx2 idsEx).1 "v0").notified = true ∧
    (webhookStep true (feedVideos true vSubEx2 idsEx).1 "v0").saved = true := by
  refine ⟨⟨by decide, by decide, by decide, by decide, by decide, by decide⟩, ?_⟩
  exact c10_bounded_dedup_window vSubEx2 ["v0"] "v0" idsEx (by decide)
    (by decide) (by decide) (by decide) (by decide) (by decide)

end NightBot

namespace NightBot

/-- C6 (Token caching with skew): `getTwitchAccessToken` performs the
client-credentials exchange iff no token is stored or the clock is at or past
expiry minus the 60-second skew; consequently, starting from a state that
needs the exchange, a successful call followed by a second call made while
the freshly stored token still satisfies `now < expiry - 60s` performs
exactly one exchange in total, and both calls return the same access token
string. -/
theorem c6_token_caching (st : Option OAuthToken) (t0 : Int) (r : ExchangeResult)
    (t1 : Int) (ex2 : Option ExchangeResult)
    (hneed : needsExchange st t0 = true)
    (hwin : t1 < t0 + r.expires_in * 1000 - 60000) :
    (∀ (s : Option OAuthToken) (n : Int) (e : Option ExchangeResult),
       (getTwitchAccessToken s n e).exchanged = needsExchange s n) ∧
    (∀ (s : Option OAuthToken) (n : Int),
       needsExchange s n = true ↔
         s = none ∨ ∃ t, s = some t ∧ t.expires_at - 60000 ≤ n) ∧
    (getTwitchAccessToken st t0 (some r)).exchanged = true ∧
    (getTwitchAccessToken st t0 (some r)).returned = some r.access_token ∧
    (getTwitchAccessToken (getTwitchAccessToken st t0 (some r)).state t1
       ex2).exchanged = false ∧
    (getTwitchAccessToken (getTwitchAccessToken st t0 (some r)).state t1
       ex2).returned = some r.access_token := by
  have hc1 : ∀ (s : Option OAuthToken) (n : Int) (e : Option ExchangeResult),
      (getTwitchAccessToken s n e).exchanged = needsExchange s n := by
    intro s n e
    cases hb : needsExchange s n <;> cases e <;> simp [getTwitchAccessToken, hb]
  have hc2 : ∀ (s : Option OAuthToken) (n : Int),
      needsExchange s n = true ↔
        s = none ∨ ∃ t, s = some t ∧ t.expires_at - 60000 ≤ n := by
    intro s n
    cases s with
    | none => simp [needsExchange]
    | some t =>
        simp [needsExchange]
  have hfst : getTwitchAccessToken st t0 (some r)
      = ⟨some ⟨r.access_token, t0 + r.expires_in * 1000⟩,
         some r.access_token, true, true⟩ := by
    simp [getTwitchAccessToken, hneed]
  have hnd2 : needsExchange
      (some ⟨r.access_token, t0 + r.expires_in * 1000⟩) t1 = false := by
    simp [needsExchange]
    omega
  have hsnd : getTwitchAccessToken
      (some (⟨r.access_token, t0 + r.expires_in * 1000⟩ : OAuthToken)) t1 ex2
      = ⟨some ⟨r.access_token, t0 + r.expires_in * 1000⟩,
         some r.access_token, false, false⟩ := by
    simp [getTwitchAccessToken, hnd2]
  refine ⟨hc1, hc2, by rw [hfst], by rw [hfst], ?_, ?_⟩
  · rw [hfst]
    show (getTwitchAccessToken _ t1 ex2).exchanged = false
    rw [hsnd]
  · rw [hfst]
    show (getTwitchAccessToken _ t1 ex2).returned = some r.access_token
    rw [hsnd]

/-- Witness for C6: a cold start at time 0, an exchange granting a 3600 s
token, and a second call at time 1000 ms. -/
theorem c6_token_caching_witness :
    (needsExchange none 0 = true ∧
     (1000 : Int) < 0 + 3600 * 1000 - 60000) ∧
    (getTwitchAccessToken none 0 (some ⟨"tok", 3600⟩)).exchanged = true ∧
    (getTwitchAccessToken none 0 (some ⟨"tok", 3600⟩)).returned = some "tok" ∧
    (getTwitchAccessToken (getTwitchAccessToken none 0 (some ⟨"tok", 3600⟩)).state
       1000 none).exchanged = false ∧
    (getTwitchAccessToken (getTwitchAccessToken none 0 (some ⟨"tok", 3600⟩)).state
       1000 none).returned = some "tok" := by
  have h := c6_token_caching none 0 ⟨"tok", 3600⟩ 1000 none (by decide) (by decide)
  exact ⟨⟨by decide, by decide⟩, h.2.2.1, h.2.2.2.1, h.2.2.2.2.1, h.2.2.2.2.2⟩

/-- C8 (Null-token degradation): when the exchange is needed and fails,
`getTwitchAccessToken` returns `null` (`none`) rather than throwing, leaves
the stored token unchanged and persists nothing; a stream sweep handed a
`null` token issues no bulk query, sends no notification, saves nothing and
leaves every subscription unchanged; and the user-info helper handed a `null`
token skips its query and returns `null`. -/
theorem c8_null_token_degradation (st : Option OAuthToken) (now : Int)
    (live : List StreamInfo) (subs : List TwitchSub)
    (userResult : Option TwitchUserInfo)
    (hneed : needsExchange st now = true) :
    (getTwitchAccessToken st now none).returned = none ∧
    (getTwitchAccessToken st now none).state = st ∧
    (getTwitchAccessToken st now none).saved = false ∧
    checkForLiveStreams none live subs = (subs, 0, 0, 0) ∧
    getTwitchUserInfo none userResult = (none, 0) := by
  refine ⟨?_, ?_, ?_, ?_, rfl⟩
  · simp [getTwitchAccessToken, hneed]
  · simp [getTwitchAccessToken, hneed]
  · simp [getTwitchAccessToken, hneed]
  · unfold checkForLiveStreams
    split <;> rfl

/-- Witness for C8: an expired-token state whose exchange fails, and a sweep
over one subscription with a `null` token. -/
theorem c8_null_token_degradation_witness :
    needsExchange none 0 = true ∧
    (getTwitchAccessToken none 0 none).returned = none ∧
    (getTwitchAccessToken none 0 none).state = none ∧
    (getTwitchAccessToken none 0 none).saved = false ∧
    checkForLiveStreams none [stEx] [tSubEx] = ([tSubEx], 0, 0, 0) ∧
    getTwitchUserInfo none (some infoEx) = (none, 0) := by
  have h := c8_null_token_degradation none 0 [stEx] [tSubEx] (some infoEx)
    (by decide)
  exact ⟨by decide, h.1, h.2.1, h.2.2.1, h.2.2.2.1, h.2.2.2.2⟩

/-- C9 (Webhook handshake and always-200): a GET carrying a (nonempty) hub
challenge is answered 200 with the challenge echoed verbatim as the body; a
GET without a challenge is answered 200 with the static acknowledgement; and
every POST delivery — whatever its body parses to, unparseable bodies
included — is answered 200. -/
theorem c9_webhook_handshake (c : String) (channelOk : Bool)
    (subs : List VideoSub) (p : FeedParse) (hc : c ≠ "") :
    handleWebhookGet (some c) = (200, c) ∧
    handleWebhookGet none = (200, "Bot is awake.") ∧
    (handleWebhookPost channelOk subs p).1 = (200, "OK") ∧
    (handleWebhookPost channelOk subs FeedParse.malformed).1 = (200, "OK") := by
  refine ⟨?_, rfl, rfl, rfl⟩
  simp [handleWebhookGet, hc]

/-- Witness for C9: a concrete challenge token and a malformed POST body. -/
theorem c9_webhook_handshake_witness :
    ("tok123" : String) ≠ "" ∧
    handleWebhookGet (some "tok123") = (200, "tok123") ∧
    handleWebhookGet none = (200, "Bot is awake.") ∧
    (handleWebhookPost true [vSubEx] FeedParse.malformed).1 = (200, "OK") := by
  have h := c9_webhook_handshake "tok123" true [vSubEx] FeedParse.malformed
    (by decide)
  exact ⟨by decide, h.1, h.2.1, h.2.2.1⟩

end NightBot

namespace NightBot

/-- C4 counterexample: against the claim, the push (webhook) path sends a
notification for a fresh candidate whose reported publish time lies 48 hours
before the current time. With `entryEx.published = 0` and the clock at
172800000 ms (48 hours later), the delivery is not in the history, the age
exceeds the 24-hour window, and yet the handler notifies. -/
theorem c4_recency_guard_counterexample :
    (172800000 : Int) - entryEx.published > 24 * 60 * 60 * 1000 ∧
    entryEx.videoId ∉ initHistory vSubEx ∧
    (processFeed true [vSubEx] (FeedParse.entry entryEx)).2 = 1 := by
  refine ⟨by decide, by decide, by decide⟩

/-- C4 amended: the 24-hour recency guard lives in the polling path
(`checkForNewVideos`), not the push path. In a poll step a candidate
differing from the last-notified id is recorded as last-notified in every
case but notifies only when published within 24 hours of now; the push path's
decision is the history membership test alone — it notifies iff the id is
absent from the history, and the entry's publish time has no effect on the
outcome of a delivery. -/
theorem c4_recency_guard_amended (now : Int) (sub : VideoSub) (v : VideoItem)
    (subs : List VideoSub) (e : FeedEntry) (p : Int) (channelOk : Bool)
    (sub2 : VideoSub) (vid : String)
    (hne : v.videoId ≠ sub.lastPostedVideoId) :
    pollVideoStep now true sub (some v)
      = (if isRecent now v.publishedAt then
           ⟨{ sub with lastPostedVideoId := v.videoId }, true, true⟩
         else
           ⟨{ sub with lastPostedVideoId := v.videoId }, false, true⟩) ∧
    ((webhookStep true sub2 vid).notified = true ↔ vid ∉ initHistory sub2) ∧
    processFeed channelOk subs (FeedParse.entry { e with published := p })
      = processFeed channelOk subs (FeedParse.entry e) := by
  refine ⟨?_, ⟨?_, ?_⟩, rfl⟩
  · unfold pollVideoStep
    simp [hne]
  · intro hnot hmem
    unfold webhookStep at hnot
    simp [hmem] at hnot
  · intro hmem
    rw [webhookStep_new sub2 vid hmem]

/-- Witness for C4 (amended): a recent poll candidate and a fresh push id. -/
theorem c4_recency_guard_amended_witness :
    (("vnew" : String) ≠ vSubEx2.lastPostedVideoId) ∧
    pollVideoStep 300000 true vSubEx2 (some ⟨"vnew", 0⟩)
      = (if isRecent 300000 (0 : Int) then
           ⟨{ vSubEx2 with lastPostedVideoId := "vnew" }, true, true⟩
         else
           ⟨{ vSubEx2 with lastPostedVideoId := "vnew" }, false, true⟩) ∧
    ((webhookStep true vSubEx "v1").notified = true ↔
       "v1" ∉ initHistory vSubEx) ∧
    processFeed true [vSubEx] (FeedParse.entry { entryEx with published := 5 })
      = processFeed true [vSubEx] (FeedParse.entry entryEx) := by
  have h := c4_recency_guard_amended 300000 vSubEx2 ⟨"vnew", 0⟩ [vSubEx]
    entryEx 5 true vSubEx "v1" (by decide)
  exact ⟨by decide, h.1, h.2.1, h.2.2⟩

/-- C5 counterexample: with a record for the pair `("UC1", "D1")` already in
the store, a second successful subscribe for the same pair does not fail and
does not leave the store unchanged — it appends a second record for the
pair. -/
theorem c5_duplicate_subscription_counterexample :
    pairCount [vSubEx] "UC1" "D1" = 1 ∧
    (subCommand [vSubEx] "D1" (some chEx) (some "v9") "UC1").2 = true ∧
    (subCommand [vSubEx] "D1" (some chEx) (some "v9") "UC1").1 ≠ [vSubEx] ∧
    pairCount (subCommand [vSubEx] "D1" (some chEx) (some "v9") "UC1").1
      "UC1" "D1" = 2 := by
  refine ⟨by decide, by decide, by decide, by decide⟩

/-- C5 amended: the subscribe commands perform no duplicate check. Whenever
the upstream lookup succeeds, the video subscribe command (and likewise the
stream one) unconditionally appends a fresh record, so the count of records
for the (source id, destination id) pair always grows by one — a second
subscribe for an existing pair yields a second record instead of failing with
`DuplicateSubscription`. A lookup failure leaves the store unchanged. -/
theorem c5_duplicate_subscription_amended (subs : List VideoSub)
    (tsubs : List TwitchSub) (msgCh : String) (ch : ChannelInfo)
    (latestId : Option String) (arg : String) (info : TwitchUserInfo)
    (msg : String) :
    (subCommand subs msgCh (some ch) latestId arg).1
      = subs ++ [{ channelId := arg, channelName := ch.title,
                   uploadsPlaylistId := some ch.uploadsPlaylistId,
                   discordChannelId := msgCh,
                   lastPostedVideoId := latestId.getD "",
                   postedVideos := some [latestId.getD ""] }] ∧
    pairCount (subCommand subs msgCh (some ch) latestId arg).1 arg msgCh
      = pairCount subs arg msgCh + 1 ∧
    subCommand subs msgCh none latestId arg = (subs, false) ∧
    (tsubCommand tsubs msgCh (some info) msg).1
      = tsubs ++ [{ twitchUsername := info.login, twitchUserId := info.id,
                    twitchDisplayName := info.display_name,
                    profileImageUrl := some info.profile_image_url,
                    discordChannelId := msgCh,
                    lastNotifiedStreamId := "",
                    liveMessage := if msg = "" then none else some msg }] := by
  refine ⟨rfl, ?_, rfl, rfl⟩
  unfold pairCount subCommand
  simp [List.filter_append]

end NightBot

namespace NightBot

theorem pollSubStep_loopSaves (now : Int) (channelOk : Bool)
    (resolvePlaylist : String → Option String)
    (fetchLatest : String → Option VideoItem)
    (acc : SweepAcc) (sub : VideoSub) :
    (pollSubStep now channelOk resolvePlaylist fetchLatest acc sub).loopSaves
      = acc.loopSaves := by
  unfold pollSubStep
  cases hpid : sub.uploadsPlaylistId with
  | some pid => rfl
  | none =>
      cases hres : resolvePlaylist sub.channelId with
      | none => rfl
      | some pid => rfl

theorem foldl_pollSubStep_loopSaves (now : Int) (channelOk : Bool)
    (resolvePlaylist : String → Option String)
    (fetchLatest : String → Option VideoItem) :
    ∀ (subs : List VideoSub) (acc : SweepAcc),
    (subs.foldl (pollSubStep now channelOk resolvePlaylist fetchLatest)
      acc).loopSaves = acc.loopSaves := by
  intro subs
  induction subs with
  | nil => intro acc; rfl
  | cons x xs ih =>
      intro acc
      rw [List.foldl_cons, ih, pollSubStep_loopSaves]

/-- C7 counterexample: against the claim, a stream-sweep step whose outcome is
the offline reset mutates the subscription (clearing `lastNotifiedStreamId`
from `"abc"` to `""`) without any snapshot write in that step — indeed a whole
sweep over this one subscription performs the mutation and zero `saveData()`
calls. -/
theorem c7_per_outcome_persistence_counterexample :
    (streamStep [] tSubEx).sub ≠ tSubEx ∧
    (streamStep [] tSubEx).sub.lastNotifiedStreamId = "" ∧
    (streamStep [] tSubEx).saved = false ∧
    checkForLiveStreams (some "tok") [] [tSubEx] = ([tSubEx0], 1, 0, 0) := by
  refine ⟨by decide, by decide, by decide, by decide⟩

/-- C7 amended: persistence is per-outcome only for the stream sweep's
new-live branch, which mutates and immediately writes a snapshot within that
subscription's step; the stream sweep's offline reset mutates without any
write; and the video poll sweep performs no write inside the per-subscription
loop at all, instead accumulating a dirty flag and issuing a single snapshot
write at sweep end iff some step changed state. -/
theorem c7_per_outcome_persistence_amended (live : List StreamInfo)
    (sub offSub : TwitchSub) (st : StreamInfo) (now : Int) (channelOk : Bool)
    (resolvePlaylist : String → Option String)
    (fetchLatest : String → Option VideoItem) (subs : List VideoSub)
    (hfind : live.find? (fun s => s.user_id == sub.twitchUserId) = some st)
    (hne : st.id ≠ sub.lastNotifiedStreamId)
    (hoff : live.find? (fun s => s.user_id == offSub.twitchUserId) = none) :
    ((streamStep live sub).notified = true ∧
     (streamStep live sub).saved = true ∧
     (streamStep live sub).sub.lastNotifiedStreamId = st.id) ∧
    streamStep live offSub
      = ⟨{ offSub with lastNotifiedStreamId := "" }, false, false⟩ ∧
    (checkForNewVideos now channelOk resolvePlaylist fetchLatest
       subs).1.loopSaves = 0 ∧
    (checkForNewVideos now channelOk resolvePlaylist fetchLatest subs).2
      = (checkForNewVideos now channelOk resolvePlaylist fetchLatest
          subs).1.dataChanged := by
  have hstep := streamStep_live_new live sub st hfind hne
  refine ⟨⟨by rw [hstep], by rw [hstep], by rw [hstep]⟩,
    streamStep_offline live offSub hoff, ?_, rfl⟩
  unfold checkForNewVideos
  exact foldl_pollSubStep_loopSaves now channelOk resolvePlaylist fetchLatest
    subs ⟨[], [], false, 0, 0⟩

/-- Witness for C7 (amended): one subscription newly live, one offline, and a
one-subscription poll sweep that fetches a fresh recent video. -/
theorem c7_per_outcome_persistence_amended_witness :
    ([stEx].find? (fun s => s.user_id == tSubEx0.twitchUserId) = some stEx ∧
     stEx.id ≠ tSubEx0.lastNotifiedStreamId ∧
     [stEx].find? (fun s => s.user_id ==
       ({ tSubEx with twitchUserId := "7" }).twitchUserId) = none) ∧
    ((streamStep [stEx] tSubEx0).notified = true ∧
     (streamStep [stEx] tSubEx0).saved = true ∧
     (streamStep [stEx] tSubEx0).sub.lastNotifiedStreamId = stEx.id) ∧
    streamStep [stEx] { tSubEx with twitchUserId := "7" }
      = ⟨{ tSubEx with twitchUserId := "7", lastNotifiedStreamId := "" },
         false, false⟩ ∧
    (checkForNewVideos 300000 true (fun _ => none)
       (fun _ => some ⟨"vnew", 0⟩) [vSubEx2]).1.loopSaves = 0 ∧
    (checkForNewVideos 300000 true (fun _ => none)
       (fun _ => some ⟨"vnew", 0⟩) [vSubEx2]).2
      = (checkForNewVideos 300000 true (fun _ => none)
          (fun _ => some ⟨"vnew", 0⟩) [vSubEx2]).1.dataChanged := by
  have h := c7_per_outcome_persistence_amended [stEx] tSubEx0
    { tSubEx with twitchUserId := "7" } stEx 300000 true (fun _ => none)
    (fun _ => some ⟨"vnew", 0⟩) [vSubEx2] (by decide) (by decide) (by decide)
  exact ⟨⟨by decide, by decide, by decide⟩, h.1, h.2.1, h.2.2.1, h.2.2.2⟩

end NightBot
